/-
  Verification of the watermark tool (src/watermark.py) against its
  natural-language specification.

  The Python code is shallowly embedded: strings are Lean `String`s
  manipulated through their character lists, Python `int` is `Int`,
  Python `float` opacity is modelled as `Rat` (the relevant claims are
  settled at inputs whose IEEE-754 double representation is exact, so
  rational and floating-point evaluation coincide there), fallible
  Python code returns `Except PyExn` or `Option`, and the environment
  (filesystem, EXIF library) is passed in explicitly.
-/
import Mathlib

set_option maxRecDepth 10000

/-- Exceptions that the embedded Python fragments can raise. -/
inductive PyExn
  | valueError
  | ioError
deriving DecidableEq, Repr

/- ### String helpers (models of Python str operations) -/

/-- Models Python `str.lower()` (ASCII range, which covers every string the
program compares case-insensitively). -/
def strLower (s : String) : String := String.mk (s.data.map Char.toLower)

/-- Models Python `str.upper()` (ASCII range). -/
def strUpper (s : String) : String := String.mk (s.data.map Char.toUpper)

/-- Models Python `s.startswith(p)`. -/
def strStarts (s p : String) : Bool := p.data.isPrefixOf s.data

/-- Models Python `s.endswith(p)`. -/
def strEnds (s p : String) : Bool := p.data.isSuffixOf s.data

/-- Models the Python slice `s[a:b]` (with `0 ≤ a ≤ b` resolved indices). -/
def strSlice (s : String) (a b : Nat) : String := String.mk ((s.data.drop a).take (b - a))

/-- Models the Python slice `s[n:]`. -/
def strDropN (s : String) (n : Nat) : String := String.mk (s.data.drop n)

/-- Models Python `s.split(sep)` for a one-character separator `sep`. -/
def strSplitChar (s : String) (sep : Char) : List String :=
  (s.data.splitOn sep).map String.mk

/-- Models Python `s.strip()` (whitespace trimming on both ends). -/
def charsStrip (cs : List Char) : List Char :=
  ((cs.dropWhile Char.isWhitespace).reverse.dropWhile Char.isWhitespace).reverse

/-- Models Python `s.strip()` on strings. -/
def strStrip (s : String) : String := String.mk (charsStrip s.data)

/-- Numeric value of a decimal digit list, most significant first. -/
def natOfDigits : List Char → Nat :=
  List.foldl (fun acc c => acc * 10 + (c.toNat - '0'.toNat)) 0

/-- Value of a single hexadecimal digit, if it is one. -/
def hexDigitVal (c : Char) : Option Nat :=
  if c.isDigit then some (c.toNat - '0'.toNat)
  else if 'a' ≤ c ∧ c ≤ 'f' then some (c.toNat - 'a'.toNat + 10)
  else if 'A' ≤ c ∧ c ≤ 'F' then some (c.toNat - 'A'.toNat + 10)
  else none

/-- Numeric value of a nonempty hexadecimal digit list, if well formed. -/
def natOfHexDigits : List Char → Option Nat
  | [] => none
  | cs => cs.foldlM (fun acc c => (hexDigitVal c).map (fun v => acc * 16 + v)) 0

/-- Splits an optional leading sign; returns (isNegative, rest). -/
def splitSign : List Char → Bool × List Char
  | '+' :: cs => (false, cs)
  | '-' :: cs => (true, cs)
  | cs => (false, cs)

/-- Models Python `int(s)` (base 10): strip whitespace, optional sign, then a
nonempty run of decimal digits; anything else raises `ValueError` (`none`
here).  Underscore digit grouping is not modelled (never well formed in the
one- or two-character substrings this program converts). -/
def pyIntDec (s : String) : Option Int :=
  let cs := charsStrip s.data
  let (neg, ds) := splitSign cs
  if ds ≠ [] ∧ ds.all Char.isDigit then
    some (if neg then -(natOfDigits ds : Int) else (natOfDigits ds : Int))
  else none

/-- Strips an optional `0x`/`0X` prefix, as Python `int(s, 16)` accepts. -/
def dropHexMark : List Char → List Char
  | '0' :: c :: rest => if c = 'x' ∨ c = 'X' then rest else '0' :: c :: rest
  | cs => cs

/-- Models Python `int(s, 16)`: strip whitespace, optional sign, optional
`0x` mark, then nonempty hexadecimal digits; otherwise `ValueError`. -/
def pyIntHex (s : String) : Option Int :=
  let cs := charsStrip s.data
  let (neg, cs1) := splitSign cs
  match natOfHexDigits (dropHexMark cs1) with
  | some n => some (if neg then -(n : Int) else (n : Int))
  | none => none

/- ### ColorParser: `WatermarkTool.parse_color` (src/watermark.py:112-149) -/

/-- The fixed named-color table of `parse_color`. -/
def color_map : List (String × (Int × Int × Int)) :=
  [("white", (255, 255, 255)),
   ("black", (0, 0, 0)),
   ("red", (255, 0, 0)),
   ("green", (0, 255, 0)),
   ("blue", (0, 0, 255)),
   ("yellow", (255, 255, 0)),
   ("cyan", (0, 255, 255)),
   ("magenta", (255, 0, 255))]

/-- The hex branch of `parse_color`: taken only when the string starts with
`#` and the remainder has exactly 6 characters; inside the branch each of the
three 2-character slices goes through `int(_, 16)`, whose `ValueError`
propagates. `none` means the branch is not taken (fall through). -/
def parseColorHex (color_str : String) : Option (Except PyExn (Int × Int × Int)) :=
  if strStarts color_str "#" then
    let hex_color := strDropN color_str 1
    if hex_color.length = 6 then
      some (match pyIntHex (strSlice hex_color 0 2), pyIntHex (strSlice hex_color 2 4),
                  pyIntHex (strSlice hex_color 4 6) with
            | some a, some b, some c => Except.ok (a, b, c)
            | _, _, _ => Except.error PyExn.valueError)
    else none
  else none

/-- The rgb branch of `parse_color`: taken only when the string starts with
`rgb(` and ends with `)` and the comma-split body has exactly 3 parts; inside
the branch each part is stripped and converted with `int(_)`, whose
`ValueError` propagates. `none` means the branch is not taken. -/
def parseColorRgb (color_str : String) : Option (Except PyExn (Int × Int × Int)) :=
  if strStarts color_str "rgb(" && strEnds color_str ")" then
    let rgb_values := strSplitChar (strSlice color_str 4 (color_str.length - 1)) ','
    if rgb_values.length = 3 then
      some (match rgb_values.map (fun x => pyIntDec (strStrip x)) with
            | [some a, some b, some c] => Except.ok (a, b, c)
            | _ => Except.error PyExn.valueError)
    else none
  else none

/-- `WatermarkTool.parse_color` (src/watermark.py:112-149): named-color
lookup on the lowercased string, then the hex branch, then the rgb branch,
then the default white.  A `ValueError` raised inside a taken branch
propagates to the caller (modelled as `Except.error`). -/
def parse_color (color_str : String) : Except PyExn (Int × Int × Int) :=
  match color_map.lookup (strLower color_str) with
  | some c => Except.ok c
  | none =>
    match parseColorHex color_str with
    | some r => r
    | none =>
      match parseColorRgb color_str with
      | some r => r
      | none => Except.ok (255, 255, 255)

/- ### PlacementCalculator: `WatermarkTool.get_position_coordinates`
     (src/watermark.py:83-110) -/

/-- `WatermarkTool.get_position_coordinates` (src/watermark.py:83-110):
a dictionary of seven fixed formulas, looked up with the bottom-right entry
as the `.get` default.  Python `//` is floor division, embedded as
`Int.fdiv`. -/
def get_position_coordinates (position : String) (image_size : Int × Int)
    (text_size : Int × Int) (margin : Int := 20) : Int × Int :=
  let img_width := image_size.1
  let img_height := image_size.2
  let text_width := text_size.1
  let text_height := text_size.2
  let position_map : List (String × (Int × Int)) :=
    [("top-left", (margin, margin)),
     ("top-right", (img_width - text_width - margin, margin)),
     ("top-center", (Int.fdiv (img_width - text_width) 2, margin)),
     ("center", (Int.fdiv (img_width - text_width) 2, Int.fdiv (img_height - text_height) 2)),
     ("bottom-left", (margin, img_height - text_height - margin)),
     ("bottom-right", (img_width - text_width - margin, img_height - text_height - margin)),
     ("bottom-center", (Int.fdiv (img_width - text_width) 2, img_height - text_height - margin))]
  (position_map.lookup position).getD
    ((position_map.lookup "bottom-right").getD (0, 0))

/-- The seven position keywords of the `position_map` dictionary. -/
def positionKeywords : List String :=
  ["top-left", "top-right", "top-center", "center",
   "bottom-left", "bottom-right", "bottom-center"]

/- ### MetadataReader: `WatermarkTool.extract_exif_datetime`
     (src/watermark.py:40-81) -/

/-- A naive (no time zone) datetime as produced by `datetime.strptime` /
`datetime.fromtimestamp`. -/
structure PyDateTime where
  year : Nat
  month : Nat
  day : Nat
  hour : Nat
  minute : Nat
  second : Nat
deriving DecidableEq, Repr

/-- Gregorian leap-year rule used by `datetime` for day-of-month validation. -/
def isLeapYear (y : Nat) : Bool :=
  (y % 4 == 0 && y % 100 != 0) || y % 400 == 0

/-- Days in a month, as `datetime` validates the `day` field. -/
def daysInMonth (y m : Nat) : Nat :=
  if m = 2 then (if isLeapYear y then 29 else 28)
  else if m = 4 ∨ m = 6 ∨ m = 9 ∨ m = 11 then 30
  else 31

/-- Consumes one expected literal character. -/
def litChar (c : Char) : List Char → Option (List Char)
  | x :: xs => if x = c then some xs else none
  | [] => none

/-- Consumes a run of 1 to `k` decimal digits (greedy, capped at `k`), as the
CPython `_strptime` regex fragments for `%m`/`%d`/`%H`/`%M`/`%S` do when the
following format character is a non-digit literal. -/
def takeDigitsUpTo (k : Nat) (cs : List Char) : Option (Nat × List Char) :=
  let ds := (cs.takeWhile Char.isDigit).take k
  if ds.isEmpty then none else some (natOfDigits ds, cs.drop ds.length)

/-- Models `datetime.strptime(s, '%Y:%m:%d %H:%M:%S')` (CPython `_strptime`):
`%Y` is exactly four digits, the other fields one or two digits, and the
resulting field values must form a valid calendar datetime (month 1-12, day
within the month, hour ≤ 23, minute ≤ 59, second ≤ 59 — seconds 60/61 pass
the regex but are rejected by the `datetime` constructor).  `none` models
`ValueError`. -/
def strptimeExif (s : String) : Option PyDateTime := do
  let cs := s.data
  let y4 := cs.take 4
  guard (y4.length = 4 ∧ y4.all Char.isDigit)
  let year := natOfDigits y4
  let r1 ← litChar ':' (cs.drop 4)
  let (month, r2) ← takeDigitsUpTo 2 r1
  let r3 ← litChar ':' r2
  let (day, r4) ← takeDigitsUpTo 2 r3
  let r5 ← litChar ' ' r4
  let (hour, r6) ← takeDigitsUpTo 2 r5
  let r7 ← litChar ':' r6
  let (minute, r8) ← takeDigitsUpTo 2 r7
  let r9 ← litChar ':' r8
  let (second, r10) ← takeDigitsUpTo 2 r9
  guard (r10 = [])
  guard (1 ≤ year ∧ 1 ≤ month ∧ month ≤ 12 ∧ 1 ≤ day ∧ day ≤ daysInMonth year month ∧
         hour ≤ 23 ∧ minute ≤ 59 ∧ second ≤ 59)
  pure ⟨year, month, day, hour, minute, second⟩

/-- Decimal rendering of `n` left-padded with zeros to width `k`. -/
def padZeros (k n : Nat) : String :=
  let s := toString n
  String.mk (List.replicate (k - s.length) '0') ++ s

/-- Models `dt.strftime('%Y年%m月%d日')` (src/watermark.py:69,77): four-digit
year, two-digit zero-padded month and day, with the CJK unit characters. -/
def strftimeCn (dt : PyDateTime) : String :=
  padZeros 4 dt.year ++ "年" ++ padZeros 2 dt.month ++ "月" ++ padZeros 2 dt.day ++ "日"

/-- The four EXIF field names probed in priority order
(src/watermark.py:55-60). -/
def datetime_fields : List String :=
  ["EXIF DateTimeOriginal", "EXIF DateTimeDigitized", "EXIF DateTime", "Image DateTime"]

/-- The `for field in datetime_fields` loop body (src/watermark.py:62-71):
for the first present tag, if its string value contains `':'` and parses with
`strptime`, return the parsed datetime; a `ValueError` (or a value without
`':'`) falls through to the next field. -/
def firstValidIn (tags : List (String × String)) : List String → Option PyDateTime
  | [] => none
  | f :: fs =>
    match tags.lookup f with
    | some v =>
      if v.data.contains ':' then
        match strptimeExif v with
        | some dt => some dt
        | none => firstValidIn tags fs
      else firstValidIn tags fs
    | none => firstValidIn tags fs

/-- First tag among `datetime_fields` whose value parses as an EXIF datetime. -/
def firstTagDate (tags : List (String × String)) : Option PyDateTime :=
  firstValidIn tags datetime_fields

/-- Log levels produced by `extract_exif_datetime`. -/
inductive LogLevel
  | info
  | warning
  | error
deriving DecidableEq, Repr

/-- The environment `extract_exif_datetime` runs against: the outcome of
`open` + `exifread.process_file` (a tag dictionary mapping tag names to their
string values, or an exception), and the outcome of `os.path.getmtime` +
`datetime.fromtimestamp` (the file's last-modified local datetime, or an
exception). -/
structure ExifEnv where
  procResult : Except PyExn (List (String × String))
  mtimeResult : Except PyExn PyDateTime

/-- `WatermarkTool.extract_exif_datetime` (src/watermark.py:40-81), returning
the optional formatted date string together with the log records it emits.
The surrounding `try`/`except` catches every exception: an exception from
`open`/`process_file` or from the mtime fallback yields `none` ("absent")
plus an error log; a tag dictionary with no usable date falls back to the
file-modification time with a warning log. -/
def extract_exif_datetime (env : ExifEnv) : Option String × List LogLevel :=
  match env.procResult with
  | Except.error _ => (none, [LogLevel.error])
  | Except.ok tags =>
    match firstTagDate tags with
    | some dt => (some (strftimeCn dt), [])
    | none =>
      match env.mtimeResult with
      | Except.error _ => (none, [LogLevel.warning, LogLevel.error])
      | Except.ok dt => (some (strftimeCn dt), [LogLevel.warning])

/- ### WatermarkRenderer: the color/alpha composition step of
     `WatermarkTool.add_watermark` (src/watermark.py:198-201) -/

/-- Models Python `int()` applied to a (real-valued) number: truncation
toward zero. -/
def pyTruncInt (q : Rat) : Int :=
  if 0 ≤ q then ⌊q⌋ else -⌊-q⌋

/-- Lines 198-201 of `add_watermark`: resolve the color string through
`parse_color`, compute `alpha = int(255 * opacity)`, and append it to the
RGB triple to obtain the RGBA fill color.  A `ValueError` escaping
`parse_color` propagates (it is caught further up by the `try` of
`add_watermark`, turning the whole render into a failure). -/
def watermarkRGBA (color : String) (opacity : Rat) :
    Except PyExn (Int × Int × Int × Int) :=
  match parse_color color with
  | Except.error e => Except.error e
  | Except.ok (r, g, b) => Except.ok (r, g, b, pyTruncInt (255 * opacity))

/- ### BatchProcessor: `WatermarkTool.process_directory`
     (src/watermark.py:224-283) -/

/-- The supported extension set (src/watermark.py:25), in some iteration
order of the Python `set`; the claims proved below depend only on its
members, not on this order. -/
def supported_formats : List String :=
  [".jpg", ".jpeg", ".png", ".tiff", ".tif", ".bmp"]

/-- Models `input_path.glob('*' + pat)` restricted to names: `pathlib`
matches a direct child against the pattern `*<pat>` exactly when `pat` is a
(character-wise, case-sensitive) suffix of its name. -/
def globMatch (pat name : String) : Bool := pat.data.isSuffixOf name.data

/-- The discovery loop of `process_directory` (src/watermark.py:250-254):
`for ext in supported_formats: extend(glob('*'+ext)); extend(glob('*'+ext.upper()))`.
The directory is modelled as the list of the names of its entries. -/
def discoverImageFiles (files : List String) : List String :=
  supported_formats.foldl
    (fun image_files ext =>
      (image_files ++ files.filter (fun n => globMatch ext n)) ++
        files.filter (fun n => globMatch (strUpper ext) n))
    []

/-- The twelve concrete glob suffixes the discovery loop uses, in use order. -/
def globSuffixes : List String :=
  supported_formats.foldl (fun acc ext => acc ++ [ext, strUpper ext]) []

/-- Index of the last `'.'` in a name, if any (Python `str.rfind('.')`). -/
def rfindDot : List Char → Option Nat
  | [] => none
  | c :: cs =>
    match rfindDot cs with
    | some i => some (i + 1)
    | none => if c = '.' then some 0 else none

/-- Models `pathlib.PurePath.suffix`: the substring from the last dot,
provided that dot is neither the first nor the last character; otherwise
the empty string. -/
def pathSuffix (name : String) : String :=
  match rfindDot name.data with
  | some i => if 0 < i ∧ i < name.length - 1 then String.mk (name.data.drop i) else ""
  | none => ""

/-- The claim's discovery criterion, written from the spec's words: the
entry's extension, compared case-insensitively, belongs to the supported
set.  Kept separate from `discoverImageFiles` (which is translated from the
code) so the two can be compared. -/
def claimSupportedExt (name : String) : Bool :=
  supported_formats.contains (strLower (pathSuffix name))

/-- Per-file environment for the batch loop: the outcome of
`extract_exif_datetime` for the file (`meta`, where `none` is "absent") and
the success flag `add_watermark` would report for it. -/
structure FileOutcome where
  meta : Option String
  renders : Bool

/-- Python truthiness of the optional date string: `if not datetime_str`
skips the file when the value is `None` or the empty string. -/
def pyTruthyOptStr : Option String → Bool
  | none => false
  | some s => !s.isEmpty

/-- Accumulated state of the batch loop: the two tallies plus the list of
files for which `add_watermark` was invoked (only those can produce an
output file). -/
structure BatchState where
  success : Nat
  fail : Nat
  rendered : List String
deriving DecidableEq, Repr

/-- One iteration of the `for image_file in image_files` loop
(src/watermark.py:262-281): an absent (falsy) date string increments the
failure tally and skips rendering; otherwise `add_watermark` runs and its
boolean outcome selects the tally. -/
def processStep (env : String → FileOutcome) (s : BatchState) (name : String) :
    BatchState :=
  if pyTruthyOptStr (env name).meta = false then
    { s with fail := s.fail + 1 }
  else if (env name).renders then
    { s with success := s.success + 1, rendered := s.rendered ++ [name] }
  else
    { s with fail := s.fail + 1, rendered := s.rendered ++ [name] }

/-- The batch loop over the discovered files, starting from zero tallies. -/
def processFiles (env : String → FileOutcome) (image_files : List String) :
    BatchState :=
  image_files.foldl (processStep env) ⟨0, 0, []⟩

/-- `WatermarkTool.process_directory` (src/watermark.py:224-283), with the
directory given as its entry names and the per-file outcomes given by
`env`: discover the image files; if none, return immediately with zero
tallies; otherwise run the loop. -/
def process_directory (files : List String) (env : String → FileOutcome) :
    BatchState :=
  let image_files := discoverImageFiles files
  if image_files.isEmpty then ⟨0, 0, []⟩
  else processFiles env image_files

/-- The predicate under which the loop counts a file as a success. -/
def successPred (env : String → FileOutcome) (name : String) : Bool :=
  pyTruthyOptStr (env name).meta && (env name).renders

/-- The predicate under which the loop counts a file as a failure. -/
def failPred (env : String → FileOutcome) (name : String) : Bool :=
  !pyTruthyOptStr (env name).meta || !(env name).renders

/- ### Theorems -/

/-- **C6**: `get_position_coordinates` is a pure total function (a Lean
`def`, total by construction): the "center" and "bottom-right" examples
evaluate as claimed, centering uses floor division (visible in the negative
uncclamped result on an oversized text), and an unknown keyword yields
exactly the bottom-right result. -/
theorem c6_position_pure_defaults :
    get_position_coordinates "center" (1000, 800) (100, 40) = (450, 380) ∧
    get_position_coordinates "bottom-right" (1000, 800) (100, 40) 20 = (880, 740) ∧
    get_position_coordinates "center" (9, 9) (100, 40) = (-46, -16) ∧
    (∀ pos, pos ∉ positionKeywords → ∀ (imgs txts : Int × Int) (margin : Int),
      get_position_coordinates pos imgs txts margin =
        get_position_coordinates "bottom-right" imgs txts margin) := by
  refine ⟨rfl, rfl, rfl, ?_⟩
  intro pos hpos imgs txts margin
  simp only [positionKeywords, List.mem_cons, List.not_mem_nil, or_false, not_or] at hpos
  obtain ⟨h1, h2, h3, h4, h5, h6, h7⟩ := hpos
  have e1 : (pos == "top-left") = false := beq_eq_false_iff_ne.mpr h1
  have e2 : (pos == "top-right") = false := beq_eq_false_iff_ne.mpr h2
  have e3 : (pos == "top-center") = false := beq_eq_false_iff_ne.mpr h3
  have e4 : (pos == "center") = false := beq_eq_false_iff_ne.mpr h4
  have e5 : (pos == "bottom-left") = false := beq_eq_false_iff_ne.mpr h5
  have e6 : (pos == "bottom-right") = false := beq_eq_false_iff_ne.mpr h6
  have e7 : (pos == "bottom-center") = false := beq_eq_false_iff_ne.mpr h7
  simp [get_position_coordinates, List.lookup, e1, e2, e3, e4, e5, e6, e7]

/-- Witness for C6 at the unknown keyword "foo". -/
theorem c6_position_pure_defaults_witness :
    get_position_coordinates "foo" (1000, 800) (100, 40) 20 =
      get_position_coordinates "bottom-right" (1000, 800) (100, 40) 20 :=
  c6_position_pure_defaults.2.2.2 "foo" (by decide) (1000, 800) (100, 40) 20

/-- **C7**: the documented resolution examples of `parse_color`: named color
(case-insensitively), hex, rgb, and the white default for an unmatched
string. -/
theorem c7_color_resolution_examples :
    parse_color "red" = Except.ok (255, 0, 0) ∧
    parse_color "RED" = Except.ok (255, 0, 0) ∧
    parse_color "#00FF00" = Except.ok (0, 255, 0) ∧
    parse_color "rgb(10, 20, 30)" = Except.ok (10, 20, 30) ∧
    parse_color "bogus" = Except.ok (255, 255, 255) :=
  ⟨rfl, rfl, rfl, rfl, rfl⟩

/-- **C1, counterexample**: a well-shaped `rgb(...)` spec with non-numeric
components does *not* resolve to white: `int('a')` raises `ValueError`,
which `parse_color` propagates, contradicting the claim that every malformed
color specification is silently resolved to (255,255,255). -/
theorem c1_counterexample_rgb_nonnumeric_raises :
    parse_color "rgb(a, b, c)" = Except.error PyExn.valueError ∧
    parse_color "#zzzzzz" = Except.error PyExn.valueError :=
  ⟨rfl, rfl⟩

/-- **C1, amended**: `parse_color` silently resolves to the white default
exactly for the malformed shapes that never enter a conversion: a string
that is not a `#` followed by exactly six characters and is not an
`rgb(...)` form splitting into exactly three comma parts yields `Except.ok`
(a named color, or white when the name lookup also fails) and never an
error.  Errors can arise only inside a well-shaped hex or rgb branch with
unparseable numeric content. -/
theorem c1_malformed_shapes_default_white (s : String)
    (hhex : ¬(strStarts s "#" = true ∧ (strDropN s 1).length = 6))
    (hrgb : ¬(strStarts s "rgb(" = true ∧ strEnds s ")" = true ∧
              (strSplitChar (strSlice s 4 (s.length - 1)) ',').length = 3)) :
    ∃ c, parse_color s = Except.ok c ∧
      (color_map.lookup (strLower s) = none → c = (255, 255, 255)) := by
  have hhex' : parseColorHex s = none := by
    rw [parseColorHex]
    rcases hs : strStarts s "#" with _ | _
    · simp
    · simp only [if_true]
      have : (strDropN s 1).length ≠ 6 := fun hl => hhex ⟨hs, hl⟩
      simp [this]
  have hrgb' : parseColorRgb s = none := by
    rw [parseColorRgb]
    rcases hs : (strStarts s "rgb(" && strEnds s ")") with _ | _
    · simp
    · simp only [if_true]
      rw [Bool.and_eq_true] at hs
      have : (strSplitChar (strSlice s 4 (s.length - 1)) ',').length ≠ 3 :=
        fun hl => hrgb ⟨hs.1, hs.2, hl⟩
      simp [this]
  rw [parse_color, hhex', hrgb']
  rcases hlk : color_map.lookup (strLower s) with _ | c
  · exact ⟨(255, 255, 255), rfl, fun _ => rfl⟩
  · exact ⟨c, rfl, fun hnone => absurd hnone (Option.some_ne_none c)⟩

/-- Witness for C1 at the wrong-length hex string "#12345". -/
theorem c1_malformed_shapes_default_white_witness :
    ∃ c, parse_color "#12345" = Except.ok c ∧
      (color_map.lookup (strLower "#12345") = none → c = (255, 255, 255)) :=
  c1_malformed_shapes_default_white "#12345" (by decide) (by decide)

/-- **C2**: when the metadata dictionary contains no usable date tag (no tag
present, or only tags whose values fail to parse as `YYYY:MM:DD HH:MM:SS`),
`extract_exif_datetime` still returns the date formatted — by the same
formatter used for EXIF dates — from the file's last-modified time, logs a
warning, and does not return "absent". -/
theorem c2_no_usable_tag_falls_back_to_mtime (tags : List (String × String))
    (dt : PyDateTime) (h : firstTagDate tags = none) :
    extract_exif_datetime ⟨Except.ok tags, Except.ok dt⟩ =
      (some (strftimeCn dt), [LogLevel.warning]) := by
  simp only [extract_exif_datetime, h]

/-- Witness for C2: a present but corrupt date tag (month 13) falls back to
the modification time 2024-03-09. -/
theorem c2_no_usable_tag_falls_back_to_mtime_witness :
    extract_exif_datetime
        ⟨Except.ok [("EXIF DateTime", "2024:13:01 00:00:00")],
         Except.ok ⟨2024, 3, 9, 1, 2, 3⟩⟩ =
      (some "2024年03月09日", [LogLevel.warning]) :=
  c2_no_usable_tag_falls_back_to_mtime [("EXIF DateTime", "2024:13:01 00:00:00")]
    ⟨2024, 3, 9, 1, 2, 3⟩ (by decide)

/-- **C5**: the four date-time tags are probed in the fixed priority order,
and a single valid tag `2024:01:15 10:30:00` yields the display form of
2024-01-15 no matter which of the four fields carries it; when both the
original-capture tag and a generic tag are present, the original wins. -/
theorem c5_priority_fields_single_tag :
    datetime_fields =
      ["EXIF DateTimeOriginal", "EXIF DateTimeDigitized", "EXIF DateTime",
       "Image DateTime"] ∧
    (∀ f, f ∈ datetime_fields → ∀ mtr : Except PyExn PyDateTime,
      extract_exif_datetime ⟨Except.ok [(f, "2024:01:15 10:30:00")], mtr⟩ =
        (some "2024年01月15日", [])) ∧
    (∀ mtr : Except PyExn PyDateTime,
      extract_exif_datetime
          ⟨Except.ok [("Image DateTime", "2030:12:31 23:59:59"),
                      ("EXIF DateTimeOriginal", "2024:01:15 10:30:00")], mtr⟩ =
        (some "2024年01月15日", [])) := by
  refine ⟨rfl, ?_, fun mtr => rfl⟩
  intro f hf mtr
  fin_cases hf <;> rfl

/-- Witness for C5 at the third priority field. -/
theorem c5_priority_fields_single_tag_witness :
    extract_exif_datetime
        ⟨Except.ok [("EXIF DateTime", "2024:01:15 10:30:00")],
         Except.ok ⟨2000, 1, 1, 0, 0, 0⟩⟩ =
      (some "2024年01月15日", []) :=
  c5_priority_fields_single_tag.2.1 "EXIF DateTime" (by decide)
    (Except.ok ⟨2000, 1, 1, 0, 0, 0⟩)

/-- **C8**: `extract_exif_datetime` is total (it cannot propagate an
exception), and every exception raised by the code it runs — reading or
parsing the file's metadata, or the mtime fallback itself — is absorbed
into the "absent" result `none` together with an error log entry. -/
theorem c8_extraction_never_raises (env : ExifEnv) :
    (∀ e, env.procResult = Except.error e →
      extract_exif_datetime env = (none, [LogLevel.error])) ∧
    (∀ tags e, env.procResult = Except.ok tags → firstTagDate tags = none →
      env.mtimeResult = Except.error e →
      extract_exif_datetime env = (none, [LogLevel.warning, LogLevel.error])) := by
  obtain ⟨proc, mtr⟩ := env
  constructor
  · intro e he
    cases he
    rfl
  · intro tags e hproc htags hmtr
    cases hproc
    cases hmtr
    simp only [extract_exif_datetime, htags]

/-- Witness for C8: an I/O error while reading metadata yields "absent" plus
an error log. -/
theorem c8_extraction_never_raises_witness :
    extract_exif_datetime ⟨Except.error PyExn.ioError, Except.ok ⟨2024, 1, 1, 0, 0, 0⟩⟩ =
      (none, [LogLevel.error]) :=
  (c8_extraction_never_raises _).1 PyExn.ioError rfl

/-- **C3, counterexample**: at opacity 63/128 (a value exactly representable
in binary floating point, so rational and float evaluation agree), the
composed RGBA fill has alpha `int(255 * 63/128) = 125`, while nearest-integer
rounding of `255 * 63/128 = 125.5078125` gives 126 — the code truncates, it
does not round. -/
theorem c3_counterexample_alpha_truncates_not_rounds :
    (0 : Rat) ≤ 63 / 128 ∧ (63 / 128 : Rat) ≤ 1 ∧
    watermarkRGBA "white" (63 / 128) = Except.ok (255, 255, 255, 125) ∧
    round ((255 : Rat) * (63 / 128)) = 126 := by
  have hfl : (⌊(255 * (63 / 128) : Rat)⌋ : Int) = 125 := by
    rw [Int.floor_eq_iff]
    norm_num
  have h : pyTruncInt (255 * (63 / 128 : Rat)) = 125 := by
    rw [pyTruncInt, if_pos (by norm_num)]
    exact hfl
  refine ⟨by norm_num, by norm_num, ?_, by norm_num [round_eq]⟩
  show Except.ok ((255 : Int), (255 : Int), (255 : Int),
      pyTruncInt (255 * (63 / 128 : Rat))) = Except.ok (255, 255, 255, 125)
  rw [h]

/-- **C3, amended**: for every color string and opacity in [0,1], whenever
the color/alpha composition step succeeds, the alpha component equals
`⌊255 * opacity⌋` — truncation toward zero, not nearest-integer rounding —
and lies in [0, 255]. -/
theorem c3_alpha_floor_of_opacity (c : String) (o : Rat) (h0 : 0 ≤ o) (h1 : o ≤ 1)
    (r g b a : Int) (h : watermarkRGBA c o = Except.ok (r, g, b, a)) :
    a = ⌊255 * o⌋ ∧ 0 ≤ a ∧ a ≤ 255 := by
  have hno : (0 : Rat) ≤ 255 * o := by positivity
  rw [watermarkRGBA] at h
  rcases hp : parse_color c with e | ⟨r', g', b'⟩ <;> rw [hp] at h
  · cases h
  · simp only [Except.ok.injEq, Prod.mk.injEq] at h
    obtain ⟨-, -, -, ha⟩ := h
    have htr : pyTruncInt (255 * o) = ⌊255 * o⌋ := by rw [pyTruncInt, if_pos hno]
    refine ⟨ha ▸ htr, ?_, ?_⟩
    · rw [← ha, htr]
      exact Int.floor_nonneg.mpr hno
    · rw [← ha, htr]
      have h255 : (255 : Rat) * o ≤ 255 := mul_le_of_le_one_right (by norm_num) h1
      calc ⌊(255 : Rat) * o⌋ ≤ ⌊(255 : Rat)⌋ := Int.floor_le_floor h255
        _ = 255 := by norm_num

/-- Witness for C3 (amended) at color "black" and opacity 1/2. -/
theorem c3_alpha_floor_of_opacity_witness :
    (127 : Int) = ⌊255 * ((1 : Rat) / 2)⌋ ∧ (0 : Int) ≤ 127 ∧ (127 : Int) ≤ 255 := by
  have hw : watermarkRGBA "black" (1 / 2) = Except.ok (0, 0, 0, 127) := by
    show Except.ok ((0 : Int), (0 : Int), (0 : Int),
        pyTruncInt (255 * (1 / 2 : Rat))) = Except.ok (0, 0, 0, 127)
    have : pyTruncInt (255 * (1 / 2 : Rat)) = 127 := by
      rw [pyTruncInt, if_pos (by norm_num), Int.floor_eq_iff]
      norm_num
    rw [this]
  exact c3_alpha_floor_of_opacity "black" (1 / 2) (by norm_num) (by norm_num) 0 0 0 127 hw

/-- A name matches the discovery scan iff one of the twelve concrete glob
suffixes (six lowercase, six uppercase) is a suffix of it. -/
def matchesGlob (name : String) : Bool :=
  globSuffixes.any (fun p => globMatch p name)

/-- The discovery fold is the single-pattern fold over the twelve concrete
suffixes, in their use order. -/
theorem discoverImageFiles_eq_fold (files : List String) :
    discoverImageFiles files =
      globSuffixes.foldl (fun acc p => acc ++ files.filter (fun n => globMatch p n)) [] :=
  rfl

/-- No glob suffix is a character-suffix of a different one, so no name can
match two distinct patterns. -/
theorem globSuffixes_pairwise_not_suffix :
    ∀ p ∈ globSuffixes, ∀ q ∈ globSuffixes, p ≠ q → ¬(p.data <:+ q.data) := by
  decide

/-- Counting a name in the single-pattern discovery fold. -/
theorem count_glob_fold (pats : List String) (files init : List String) (name : String) :
    (pats.foldl (fun acc p => acc ++ files.filter (fun n => globMatch p n)) init).count name =
      init.count name +
        (pats.filter (fun p => globMatch p name)).length * files.count name := by
  induction pats generalizing init with
  | nil => simp
  | cons p ps ih =>
    rw [List.foldl_cons, ih, List.count_append]
    rcases hm : globMatch p name with _ | _
    · have hz : (files.filter (fun n => globMatch p n)).count name = 0 := by
        rw [List.count_eq_zero]
        intro hmem
        rw [List.mem_filter] at hmem
        rw [hm] at hmem
        exact Bool.false_ne_true hmem.2
      rw [hz]
      simp [List.filter_cons, hm]
    · rw [List.count_filter hm]
      simp [List.filter_cons, hm]
      ring

/-- At most one glob suffix matches any given name. -/
theorem matching_suffixes_le_one (name : String) :
    (globSuffixes.filter (fun p => globMatch p name)).length ≤ 1 := by
  rcases hl : globSuffixes.filter (fun p => globMatch p name) with _ | ⟨p, _ | ⟨q, rest⟩⟩
  · simp
  · simp
  · exfalso
    have hnodup : (globSuffixes.filter (fun p => globMatch p name)).Nodup :=
      List.Nodup.filter _ (by decide)
    rw [hl] at hnodup
    have hpq : p ≠ q := by
      rcases List.nodup_cons.mp hnodup with ⟨hnp, -⟩
      exact fun e => hnp (e ▸ List.mem_cons_self q rest)
    have hp : p ∈ globSuffixes ∧ globMatch p name = true := by
      have hmem : p ∈ globSuffixes.filter (fun p => globMatch p name) := by
        rw [hl]; exact List.mem_cons_self _ _
      exact ⟨(List.mem_filter.mp hmem).1, (List.mem_filter.mp hmem).2⟩
    have hq : q ∈ globSuffixes ∧ globMatch q name = true := by
      have hmem : q ∈ globSuffixes.filter (fun p => globMatch p name) := by
        rw [hl]; exact List.mem_cons_of_mem _ (List.mem_cons_self _ _)
      exact ⟨(List.mem_filter.mp hmem).1, (List.mem_filter.mp hmem).2⟩
    have sp : p.data <:+ name.data := List.isSuffixOf_iff_suffix.mp hp.2
    have sq : q.data <:+ name.data := List.isSuffixOf_iff_suffix.mp hq.2
    rcases List.suffix_or_suffix_of_suffix sp sq with hs | hs
    · exact globSuffixes_pairwise_not_suffix p hp.1 q hq.1 hpq hs
    · exact globSuffixes_pairwise_not_suffix q hq.1 p hp.1 hpq.symm hs

/-- **C4, counterexample**: "photo.Jpg" has extension ".jpg" under
case-insensitive comparison, which is in the supported set, yet the
discovery scan — which only globs the exact lowercase and exact uppercase
variants — does not find it. -/
theorem c4_counterexample_mixed_case_missed :
    claimSupportedExt "photo.Jpg" = true ∧
    discoverImageFiles ["photo.Jpg"] = [] :=
  ⟨by decide, by decide⟩

/-- **C4, amended**: on a directory with distinct entry names, the discovery
scan finds exactly the entries having one of the twelve exact suffixes
(the all-lowercase and all-uppercase variants of the six supported
extensions) — each such entry exactly once, and nothing else.  Mixed-case
extensions such as ".Jpg" are missed, so discovery is strictly narrower
than the claimed case-insensitive extension comparison. -/
theorem c4_discovery_exact_case_patterns (files : List String) (name : String)
    (hnd : files.Nodup) :
    (name ∈ discoverImageFiles files ↔ (name ∈ files ∧ matchesGlob name = true)) ∧
    (discoverImageFiles files).count name ≤ 1 := by
  have hcount : (discoverImageFiles files).count name =
      (globSuffixes.filter (fun p => globMatch p name)).length * files.count name := by
    rw [discoverImageFiles_eq_fold, count_glob_fold]
    simp
  have hml : matchesGlob name = true ↔
      0 < (globSuffixes.filter (fun p => globMatch p name)).length := by
    rw [matchesGlob, List.any_eq_true]
    constructor
    · rintro ⟨p, hp, hm⟩
      exact List.length_pos.mpr (List.ne_nil_of_mem (List.mem_filter.mpr ⟨hp, hm⟩))
    · intro h
      obtain ⟨p, hp⟩ := List.exists_mem_of_ne_nil _ (List.length_pos.mp h)
      exact ⟨p, (List.mem_filter.mp hp).1, (List.mem_filter.mp hp).2⟩
  have key : name ∈ discoverImageFiles files ↔
      0 < (globSuffixes.filter (fun p => globMatch p name)).length * files.count name := by
    rw [← hcount]
    exact List.count_pos_iff.symm
  constructor
  · rw [key]
    constructor
    · intro hpos
      have hC : 0 < files.count name := by
        rcases Nat.eq_zero_or_pos (files.count name) with h0 | h
        · rw [h0, Nat.mul_zero] at hpos
          exact absurd hpos (lt_irrefl 0)
        · exact h
      have hL : 0 < (globSuffixes.filter (fun p => globMatch p name)).length := by
        rcases Nat.eq_zero_or_pos
            (globSuffixes.filter (fun p => globMatch p name)).length with h0 | h
        · rw [h0, Nat.zero_mul] at hpos
          exact absurd hpos (lt_irrefl 0)
        · exact h
      exact ⟨List.count_pos_iff.mp hC, hml.mpr hL⟩
    · rintro ⟨hmem, hm⟩
      exact Nat.mul_pos (hml.mp hm) (List.count_pos_iff.mpr hmem)
  · rw [hcount]
    calc (globSuffixes.filter (fun p => globMatch p name)).length * files.count name
        ≤ 1 * 1 :=
          Nat.mul_le_mul (matching_suffixes_le_one name)
            (List.nodup_iff_count_le_one.mp hnd name)
      _ = 1 := by norm_num

/-- Witness for C4 (amended) on a two-entry directory. -/
theorem c4_discovery_exact_case_patterns_witness :
    ("a.jpg" ∈ discoverImageFiles ["a.jpg", "notes.txt"] ↔
      ("a.jpg" ∈ ["a.jpg", "notes.txt"] ∧ matchesGlob "a.jpg" = true)) ∧
    (discoverImageFiles ["a.jpg", "notes.txt"]).count "a.jpg" ≤ 1 :=
  c4_discovery_exact_case_patterns ["a.jpg", "notes.txt"] "a.jpg" (by decide)

/-- Closed form of the batch loop: starting from any state, the loop adds
the number of success-predicate files to the success tally, the number of
failure-predicate files to the failure tally, and invokes the renderer
exactly on the files with a truthy (non-absent) date string, in order. -/
theorem processFiles_closed_form (env : String → FileOutcome) (l : List String)
    (init : BatchState) :
    l.foldl (processStep env) init =
      ⟨init.success + (l.filter (successPred env)).length,
       init.fail + (l.filter (failPred env)).length,
       init.rendered ++ l.filter (fun n => pyTruthyOptStr (env n).meta)⟩ := by
  induction l generalizing init with
  | nil => simp
  | cons a l ih =>
    rw [List.foldl_cons, ih]
    rcases hm : pyTruthyOptStr (env a).meta with _ | _
    · simp [processStep, successPred, failPred, hm, List.filter_cons]
      omega
    · rcases hr : (env a).renders with _ | _
      · simp [processStep, successPred, failPred, hm, hr, List.filter_cons]
        omega
      · simp [processStep, successPred, failPred, hm, hr, List.filter_cons]
        omega

/-- The two loop predicates are complementary. -/
theorem failPred_eq_not_successPred (env : String → FileOutcome) (n : String) :
    failPred env n = !(successPred env n) := by
  rw [failPred, successPred]
  rcases pyTruthyOptStr (env n).meta with _ | _ <;>
    rcases (env n).renders with _ | _ <;> rfl

/-- Complementary filters split the length of a list. -/
theorem length_filter_bool_split (l : List α) (p : α → Bool) :
    (l.filter p).length + (l.filter (fun a => !(p a))).length = l.length := by
  induction l with
  | nil => rfl
  | cons a l ih =>
    rcases h : p a with _ | _ <;> simp [List.filter_cons, h] <;> omega

/-- **C9**: a discovered file (present exactly once in the discovery list)
whose metadata extraction comes back absent is never passed to the renderer
(so no output file is created for it), is counted among the failures —
appearing exactly once in the failure filter whose length is the failure
tally — and the loop still processes the whole list (both tallies are the
closed-form counts over all discovered files). -/
theorem c9_absent_counted_once_skips_render (files : List String)
    (env : String → FileOutcome) (name : String)
    (hcount : (discoverImageFiles files).count name = 1)
    (habsent : pyTruthyOptStr (env name).meta = false) :
    name ∉ (process_directory files env).rendered ∧
    (process_directory files env).fail =
      ((discoverImageFiles files).filter (failPred env)).length ∧
    ((discoverImageFiles files).filter (failPred env)).count name = 1 ∧
    (process_directory files env).success =
      ((discoverImageFiles files).filter (successPred env)).length := by
  have hmem : name ∈ discoverImageFiles files :=
    List.count_pos_iff.mp (hcount ▸ Nat.one_pos)
  have hne : (discoverImageFiles files).isEmpty = false := by
    rcases hd : discoverImageFiles files with _ | _
    · rw [hd] at hmem
      cases hmem
    · rfl
  have hr : process_directory files env =
      ⟨((discoverImageFiles files).filter (successPred env)).length,
       ((discoverImageFiles files).filter (failPred env)).length,
       (discoverImageFiles files).filter (fun n => pyTruthyOptStr (env n).meta)⟩ := by
    rw [process_directory]
    simp only [hne, Bool.false_eq_true, if_false]
    rw [processFiles, processFiles_closed_form]
    simp
  refine ⟨?_, by rw [hr], ?_, by rw [hr]⟩
  · rw [hr]
    intro hin
    rw [List.mem_filter, habsent] at hin
    exact Bool.false_ne_true hin.2
  · rw [List.count_filter (by rw [failPred, habsent]; rfl)]
    exact hcount

/-- Witness for C9: a two-file directory where "a.jpg" has absent metadata
and "b.jpg" extracts and renders fine. -/
theorem c9_absent_counted_once_skips_render_witness :
    "a.jpg" ∉ (process_directory ["a.jpg", "b.jpg"]
        (fun n => if n = "a.jpg" then ⟨none, true⟩
                  else ⟨some "2024年01月15日", true⟩)).rendered ∧
    (process_directory ["a.jpg", "b.jpg"]
        (fun n => if n = "a.jpg" then ⟨none, true⟩
                  else ⟨some "2024年01月15日", true⟩)).fail =
      ((discoverImageFiles ["a.jpg", "b.jpg"]).filter
        (failPred (fun n => if n = "a.jpg" then ⟨none, true⟩
                            else ⟨some "2024年01月15日", true⟩))).length ∧
    ((discoverImageFiles ["a.jpg", "b.jpg"]).filter
        (failPred (fun n => if n = "a.jpg" then ⟨none, true⟩
                            else ⟨some "2024年01月15日", true⟩))).count "a.jpg" = 1 ∧
    (process_directory ["a.jpg", "b.jpg"]
        (fun n => if n = "a.jpg" then ⟨none, true⟩
                  else ⟨some "2024年01月15日", true⟩)).success =
      ((discoverImageFiles ["a.jpg", "b.jpg"]).filter
        (successPred (fun n => if n = "a.jpg" then ⟨none, true⟩
                               else ⟨some "2024年01月15日", true⟩))).length :=
  c9_absent_counted_once_skips_render ["a.jpg", "b.jpg"]
    (fun n => if n = "a.jpg" then ⟨none, true⟩ else ⟨some "2024年01月15日", true⟩)
    "a.jpg" (by decide) (by decide)

/-- **C10**: the pair returned by `process_directory` partitions the
discovered files — success plus failure tallies equal the number of
discovered image files; the loop starts from zero tallies, the tallies over
any processed prefix never exceed the final ones (counters never decrease),
and no discovered file escapes the tally. -/
theorem c10_tallies_partition_discovered (files : List String)
    (env : String → FileOutcome) :
    (process_directory files env).success + (process_directory files env).fail =
      (discoverImageFiles files).length ∧
    processFiles env [] = ⟨0, 0, []⟩ ∧
    (∀ n, (processFiles env ((discoverImageFiles files).take n)).success ≤
            (processFiles env (discoverImageFiles files)).success ∧
          (processFiles env ((discoverImageFiles files).take n)).fail ≤
            (processFiles env (discoverImageFiles files)).fail) := by
  have hclosed : ∀ l : List String, processFiles env l =
      ⟨(l.filter (successPred env)).length, (l.filter (failPred env)).length,
       l.filter (fun n => pyTruthyOptStr (env n).meta)⟩ := by
    intro l
    rw [processFiles, processFiles_closed_form]
    simp
  refine ⟨?_, rfl, ?_⟩
  · rw [process_directory]
    rcases hd : discoverImageFiles files with _ | ⟨a, l⟩
    · simp
    · simp only [List.isEmpty_cons, Bool.false_eq_true, if_false]
      rw [hclosed]
      have hcongr : (a :: l).filter (failPred env) =
          (a :: l).filter (fun x => !(successPred env x)) :=
        List.filter_congr (fun x _ => failPred_eq_not_successPred env x)
      rw [hcongr]
      exact length_filter_bool_split (a :: l) (successPred env)
  · intro n
    rw [hclosed, hclosed]
    constructor
    · exact List.Sublist.length_le
        (List.Sublist.filter _ (List.take_sublist n (discoverImageFiles files)))
    · exact List.Sublist.length_le
        (List.Sublist.filter _ (List.take_sublist n (discoverImageFiles files)))
